import Mathlib

/-!
Verification of the password-change validator and user/profile plumbing of
the Foot_app user-account subsystem.

The embedding follows `src/user_profile/accounts/forms.py`
(`ValidatingPasswordChangeForm.clean`) and
`src/user_profile/accounts/models.py` (`UserManager.create_user`,
`create_user_profile`, `UserProfile`).

Python strings are modelled as `List Char`; the regular-expression searches
of `clean` (`([a-z])+`, `([A-Z])+`, `\d+`, `([@#$])+`) are modelled as
`List.any` over the corresponding character class; Python's substring test
`a in b` is `containsSub`; `str.lower()` is the ASCII `lowerStr` (all
inputs in the repository inhabit ASCII).
-/

namespace FootApp

abbrev Str := List Char

/-- Character class of `re.search('([a-z])+', ...)`: an ASCII lowercase letter. -/
def isLowerAscii (c : Char) : Bool := decide ('a' ≤ c) && decide (c ≤ 'z')

/-- Character class of `re.search('([A-Z])+', ...)`: an ASCII uppercase letter. -/
def isUpperAscii (c : Char) : Bool := decide ('A' ≤ c) && decide (c ≤ 'Z')

/-- Character class of `re.search('\d+', ...)`: a decimal digit. -/
def isDigitChar (c : Char) : Bool := decide ('0' ≤ c) && decide (c ≤ '9')

/-- Character class of `re.search('([@#$])+', ...)`: one of the literal
characters `@`, `#`, `$`. -/
def isSpecialChar (c : Char) : Bool := c == '@' || c == '#' || c == '$'

/-- Python `str.lower()` on the ASCII fragment: map `A`-`Z` to `a`-`z`. -/
def lowerChar (c : Char) : Char :=
  if isUpperAscii c then Char.ofNat (c.toNat + 32) else c

/-- `str.lower()` lifted to a whole string. -/
def lowerStr (s : Str) : Str := s.map lowerChar

/-- Python's substring operator `needle in haystack`: `needle` occurs as a
contiguous run of `haystack`.  As in Python, the empty needle is contained
in every haystack. -/
def containsSub : Str → Str → Bool
  | needle, [] => needle.isEmpty
  | needle, c :: rest => needle.isPrefixOf (c :: rest) || containsSub needle rest

/-- The identity record the validator reads: `request.user` with its
`username`, `first_name`, `last_name` fields and the external
`check_password` collaborator (`verify_password` in the spec's terms). -/
structure Identity where
  username : Str
  first_name : Str
  last_name : Str
  verify_password : Str → Bool

/-- The decision of `ValidatingPasswordChangeForm.clean`: `Accept` when the
method returns `self.cleaned_data`, otherwise the reason of the single
`ValidationError` it raises. -/
inductive ValidationResult where
  | Accept
  | WrongOldPassword
  | PasswordUnchanged
  | MissingCaseMix
  | TooShort
  | MissingDigit
  | MissingSpecialChar
  | ContainsIdentityFragment
deriving DecidableEq, Repr

/-- `ValidatingPasswordChangeForm.MIN_LENGTH`. -/
def MIN_LENGTH : Nat := 14

/-- The identity-leakage condition of `clean` (forms.py lines 202-210):
`user_first_name in new_password.lower() or user_last_name in
new_password.lower() or user_username in new_password.lower()`, where each
field was lowercased first.  Note the source has no emptiness guard on the
fields. -/
def containsIdentityFragment (ident : Identity) (new_password : Str) : Bool :=
  containsSub (lowerStr ident.first_name) (lowerStr new_password) ||
  containsSub (lowerStr ident.last_name) (lowerStr new_password) ||
  containsSub (lowerStr ident.username) (lowerStr new_password)

/-- `ValidatingPasswordChangeForm.clean` (forms.py lines 163-212), with each
`raise forms.ValidationError(...)` mapped to the matching
`ValidationResult` and fall-through to `return self.cleaned_data` mapped to
`Accept`. -/
def clean (ident : Identity) (old_password new_password : Str) : ValidationResult :=
  if ident.verify_password old_password then
    if new_password == old_password then
      ValidationResult.PasswordUnchanged
    else if !(new_password.any isLowerAscii) || !(new_password.any isUpperAscii) then
      ValidationResult.MissingCaseMix
    else if decide (new_password.length < MIN_LENGTH) then
      ValidationResult.TooShort
    else if !(new_password.any isDigitChar) then
      ValidationResult.MissingDigit
    else if !(new_password.any isSpecialChar) then
      ValidationResult.MissingSpecialChar
    else if containsIdentityFragment ident new_password then
      ValidationResult.ContainsIdentityFragment
    else
      ValidationResult.Accept
  else
    ValidationResult.WrongOldPassword

/-- The seven checks of the validation sequence, in the source's order, each
as a failure condition paired with its rejection reason. -/
def checkList (ident : Identity) (old_password new_password : Str) :
    List (Bool × ValidationResult) :=
  [ (!(ident.verify_password old_password), ValidationResult.WrongOldPassword),
    (new_password == old_password, ValidationResult.PasswordUnchanged),
    (!(new_password.any isLowerAscii) || !(new_password.any isUpperAscii),
      ValidationResult.MissingCaseMix),
    (decide (new_password.length < MIN_LENGTH), ValidationResult.TooShort),
    (!(new_password.any isDigitChar), ValidationResult.MissingDigit),
    (!(new_password.any isSpecialChar), ValidationResult.MissingSpecialChar),
    (containsIdentityFragment ident new_password,
      ValidationResult.ContainsIdentityFragment) ]

/-- First-failure semantics over an ordered list of checks: the reason of
the first check whose failure condition holds, `Accept` when none does. -/
def firstFailure : List (Bool × ValidationResult) → ValidationResult
  | [] => ValidationResult.Accept
  | (b, r) :: rest => if b then r else firstFailure rest

/-! ## models.py: profile auto-provisioning (signal handler) -/

/-- Database state relevant to the `post_save` signal: the saved `User` rows
and the `UserProfile` rows, each profile identified by the id of the user it
is linked to through its `OneToOneField`. -/
structure DBState where
  users : List Nat
  profiles : List Nat

/-- `create_user_profile` (models.py lines 91-93): on `post_save` of a
`User`, create a `UserProfile` linked to `instance` when `created` is true,
do nothing otherwise (`instance` is a Lean keyword, hence `inst`). -/
def create_user_profile (inst : Nat) (created : Bool) (s : DBState) : DBState :=
  if created then { s with profiles := s.profiles ++ [inst] } else s

/-- Saving a `User`: the row is inserted when not yet present (`created` is
true exactly then), and the `post_save` signal then runs
`create_user_profile` (models.py line 96 connects it with `sender=User`). -/
def save_user (u : Nat) (s : DBState) : DBState :=
  let created := !(s.users.contains u)
  let s1 := if created then { s with users := s.users ++ [u] } else s
  create_user_profile u created s1

/-! ## models.py: UserManager.create_user -/

/-- Python truthiness of the `username=None` default parameter: falsy when
`None` or the empty string. -/
def optFalsy : Option Str → Bool
  | none => true
  | some s => s.isEmpty

/-- The `User` record built by `create_user`, with the effects of
`set_password` and `save` made explicit as fields. -/
structure MUser where
  first_name : Str
  last_name : Str
  email : Str
  username : Str
  password : Option Str
  saved : Bool

/-- `user.set_password(password)` (external authentication collaborator):
store the given raw password on the user record. -/
def set_password (u : MUser) (pw : Option Str) : MUser := { u with password := pw }

/-- `user.save()`: mark the record as persisted. -/
def save (u : MUser) : MUser := { u with saved := true }

/-- `BaseUserManager.normalize_email`, the external framework collaborator
called by `create_user`: strip surrounding whitespace, split at the last
`@`, lowercase the domain part; an email without `@` is returned unchanged. -/
def normalize_email (email : Str) : Str :=
  let e := (((email.dropWhile Char.isWhitespace).reverse).dropWhile Char.isWhitespace).reverse
  let rev := e.reverse
  let domainRev := rev.takeWhile (fun c => !(c == '@'))
  match rev.dropWhile (fun c => !(c == '@')) with
  | [] => email
  | _ :: nameRev => nameRev.reverse ++ '@' :: lowerStr domainRev.reverse

/-- `UserManager.create_user` (models.py lines 18-36): raise `ValueError`
when `email` is falsy, then when `username` is falsy (the `first_name` and
`last_name` checks are commented out in the source); otherwise build the
user, set the password, save and return it. -/
def create_user (first_name last_name email : Str) (username : Option Str)
    (password : Option Str) : Except String MUser :=
  if email.isEmpty then
    Except.error "Users must have an email address"
  else if optFalsy username then
    Except.error "Users must have a username"
  else
    let user : MUser :=
      { first_name := first_name, last_name := last_name,
        email := normalize_email email, username := username.getD [],
        password := none, saved := false }
    Except.ok (save (set_password user password))

/-- Whether `create_user` raised a `ValueError`. -/
def isErr : Except String MUser → Bool
  | Except.error _ => true
  | Except.ok _ => false

/-! ## Concrete instances used in witnesses and counterexamples -/

/-- The spec's running identity: username `jdoe`, first name `John`, last
name `Doe`, stored password `OldSecret1@`. -/
def identJdoe : Identity :=
  { username := "jdoe".toList, first_name := "John".toList,
    last_name := "Doe".toList,
    verify_password := fun s => s == "OldSecret1@".toList }

/-- An identity like `identJdoe` but with an empty `first_name`. -/
def identEmptyFirst : Identity :=
  { username := "jdoe".toList, first_name := [],
    last_name := "Doe".toList,
    verify_password := fun s => s == "OldSecret1@".toList }

/-- An identity with an empty `last_name`, stored password `Prev1ous@pw`. -/
def identEmptyLast : Identity :=
  { username := "alice99".toList, first_name := "Alice".toList,
    last_name := [],
    verify_password := fun s => s == "Prev1ous@pw".toList }

/-- An identity whose password verification always fails. -/
def identNever : Identity :=
  { username := "u1".toList, first_name := "F".toList,
    last_name := "L".toList, verify_password := fun _ => false }

/-! ## Claim theorems -/

/-- Claim C1: `clean` runs its seven checks in the fixed source order
(old-password, no-op, case-mixing, length, digit, special character,
identity leakage); the first failing check short-circuits, and the result
is the single reason of that first failing check — by construction of
`firstFailure` never an aggregation of several simultaneously violated
rules. -/
theorem clean_eq_firstFailure (ident : Identity) (old_password new_password : Str) :
    clean ident old_password new_password =
      firstFailure (checkList ident old_password new_password) := by
  simp only [clean, checkList, firstFailure]
  cases h : ident.verify_password old_password <;> simp [h]

/-- Claim C2 (code bug): the source has no emptiness guard in the identity
leakage check, so an identity with empty `first_name` makes `clean` reject
every password reaching check 7.  At the failing input — identity `jdoe`
with empty first name, correct old password `OldSecret1@`, new password
`Str0ng#Pass2024` which passes checks 1-6 and contains neither `jdoe` nor
`doe` case-insensitively — the code returns `ContainsIdentityFragment`,
while the claim requires it not to. -/
theorem clean_empty_first_name_false_positive :
    identEmptyFirst.verify_password ("OldSecret1@".toList) = true ∧
    containsSub (lowerStr identEmptyFirst.username)
      (lowerStr ("Str0ng#Pass2024".toList)) = false ∧
    containsSub (lowerStr identEmptyFirst.last_name)
      (lowerStr ("Str0ng#Pass2024".toList)) = false ∧
    clean identEmptyFirst ("OldSecret1@".toList) ("Str0ng#Pass2024".toList) =
      ValidationResult.ContainsIdentityFragment := by
  decide

/-- Claim C3: whenever `identity.verify_password(old_password)` is false,
`clean` returns `WrongOldPassword`, whatever the new password is. -/
theorem clean_wrong_old_password (ident : Identity) (old_password new_password : Str)
    (h : ident.verify_password old_password = false) :
    clean ident old_password new_password = ValidationResult.WrongOldPassword := by
  simp [clean, h]

theorem clean_wrong_old_password_witness :
    identNever.verify_password ("pw".toList) = false ∧
    clean identNever ("pw".toList) ("AnyNewPass1@x".toList) =
      ValidationResult.WrongOldPassword :=
  ⟨rfl, clean_wrong_old_password identNever ("pw".toList) ("AnyNewPass1@x".toList) rfl⟩

/-- Claim C4: when the old password verifies and the new password equals
the old one, `clean` returns `PasswordUnchanged` (the equality test sits
inside the branch where verification succeeded). -/
theorem clean_password_unchanged (ident : Identity) (old_password new_password : Str)
    (h1 : ident.verify_password old_password = true)
    (h2 : new_password = old_password) :
    clean ident old_password new_password = ValidationResult.PasswordUnchanged := by
  subst h2
  simp [clean, h1]

theorem clean_password_unchanged_witness :
    identJdoe.verify_password ("OldSecret1@".toList) = true ∧
    clean identJdoe ("OldSecret1@".toList) ("OldSecret1@".toList) =
      ValidationResult.PasswordUnchanged :=
  ⟨rfl, clean_password_unchanged identJdoe ("OldSecret1@".toList)
    ("OldSecret1@".toList) rfl rfl⟩

/-- Claim C5 counterexample: for the identity `alice99` / `Alice` / empty
last name, the new password `Great#Pass0123` passes checks 1-6 and
contains no non-empty identity field case-insensitively, yet `clean` does
not return `Accept` (the empty `last_name` matches trivially). -/
theorem clean_accept_nonempty_cex :
    identEmptyLast.verify_password ("Prev1ous@pw".toList) = true ∧
    (("Great#Pass0123".toList : Str) == ("Prev1ous@pw".toList : Str)) = false ∧
    ("Great#Pass0123".toList).any isLowerAscii = true ∧
    ("Great#Pass0123".toList).any isUpperAscii = true ∧
    decide (("Great#Pass0123".toList).length < MIN_LENGTH) = false ∧
    ("Great#Pass0123".toList).any isDigitChar = true ∧
    ("Great#Pass0123".toList).any isSpecialChar = true ∧
    containsSub (lowerStr identEmptyLast.username)
      (lowerStr ("Great#Pass0123".toList)) = false ∧
    containsSub (lowerStr identEmptyLast.first_name)
      (lowerStr ("Great#Pass0123".toList)) = false ∧
    clean identEmptyLast ("Prev1ous@pw".toList) ("Great#Pass0123".toList) ≠
      ValidationResult.Accept := by
  decide

/-- Claim C5 (amended): when the old password verifies, the new password
differs from the old, mixes cases, has length at least 14, has a digit and
one of `@`, `#`, `$`, and contains no identity field case-insensitively —
the empty string counting as always contained, so all three fields must be
non-empty — `clean` returns `Accept`. -/
theorem clean_accept_amended (ident : Identity) (old_password new_password : Str)
    (h1 : ident.verify_password old_password = true)
    (h2 : (new_password == old_password) = false)
    (h3 : new_password.any isLowerAscii = true)
    (h4 : new_password.any isUpperAscii = true)
    (h5 : decide (new_password.length < MIN_LENGTH) = false)
    (h6 : new_password.any isDigitChar = true)
    (h7 : new_password.any isSpecialChar = true)
    (h8 : containsIdentityFragment ident new_password = false) :
    clean ident old_password new_password = ValidationResult.Accept := by
  simp [clean, h1, h2, h3, h4, h5, h6, h7, h8]

theorem clean_accept_amended_witness :
    clean identJdoe ("OldSecret1@".toList) ("Str0ng#Pass2024".toList) =
      ValidationResult.Accept :=
  clean_accept_amended identJdoe ("OldSecret1@".toList) ("Str0ng#Pass2024".toList)
    (by decide) (by decide) (by decide) (by decide) (by decide) (by decide)
    (by decide) (by decide)

/-- Claim C6: when checks 1-6 pass and the lowercased new password contains
the lowercased `first_name`, `last_name` or `username`, `clean` returns
`ContainsIdentityFragment`. -/
theorem clean_contains_identity_fragment (ident : Identity)
    (old_password new_password : Str)
    (h1 : ident.verify_password old_password = true)
    (h2 : (new_password == old_password) = false)
    (h3 : new_password.any isLowerAscii = true)
    (h4 : new_password.any isUpperAscii = true)
    (h5 : decide (new_password.length < MIN_LENGTH) = false)
    (h6 : new_password.any isDigitChar = true)
    (h7 : new_password.any isSpecialChar = true)
    (h8 : containsIdentityFragment ident new_password = true) :
    clean ident old_password new_password =
      ValidationResult.ContainsIdentityFragment := by
  simp [clean, h1, h2, h3, h4, h5, h6, h7, h8]

theorem clean_contains_identity_fragment_witness :
    clean identJdoe ("OldSecret1@".toList) ("MyJohnPass12@@".toList) =
      ValidationResult.ContainsIdentityFragment :=
  clean_contains_identity_fragment identJdoe ("OldSecret1@".toList)
    ("MyJohnPass12@@".toList) (by decide) (by decide) (by decide) (by decide)
    (by decide) (by decide) (by decide) (by decide)

/-- Claim C7: when checks 1-5 pass, `clean` returns `MissingSpecialChar`
exactly when the new password contains none of the literal characters `@`,
`#`, `$`. -/
theorem clean_missing_special_char_iff (ident : Identity)
    (old_password new_password : Str)
    (h1 : ident.verify_password old_password = true)
    (h2 : (new_password == old_password) = false)
    (h3 : new_password.any isLowerAscii = true)
    (h4 : new_password.any isUpperAscii = true)
    (h5 : decide (new_password.length < MIN_LENGTH) = false)
    (h6 : new_password.any isDigitChar = true) :
    clean ident old_password new_password = ValidationResult.MissingSpecialChar ↔
      new_password.any isSpecialChar = false := by
  cases h7 : new_password.any isSpecialChar
  · simp [clean, h1, h2, h3, h4, h5, h6, h7]
  · cases h8 : containsIdentityFragment ident new_password <;>
      simp [clean, h1, h2, h3, h4, h5, h6, h7, h8]

theorem clean_missing_special_char_iff_witness :
    clean identJdoe ("OldSecret1@".toList) ("ValidLength1234".toList) =
      ValidationResult.MissingSpecialChar :=
  (clean_missing_special_char_iff identJdoe ("OldSecret1@".toList)
    ("ValidLength1234".toList) (by decide) (by decide) (by decide) (by decide)
    (by decide) (by decide)).mpr (by decide)

/-- Claim C8: when the old password verifies, the new password differs from
the old and mixes cases, any new password shorter than 14 characters is
rejected with `TooShort`, before the digit, special-character and identity
checks are consulted. -/
theorem clean_too_short (ident : Identity) (old_password new_password : Str)
    (h1 : ident.verify_password old_password = true)
    (h2 : (new_password == old_password) = false)
    (h3 : new_password.any isLowerAscii = true)
    (h4 : new_password.any isUpperAscii = true)
    (h5 : decide (new_password.length < MIN_LENGTH) = true) :
    clean ident old_password new_password = ValidationResult.TooShort := by
  simp [clean, h1, h2, h3, h4, h5]

theorem clean_too_short_witness :
    ("short1A@".toList : Str).length = 8 ∧
    ("short1A@".toList : Str).any isDigitChar = true ∧
    ("short1A@".toList : Str).any isSpecialChar = true ∧
    containsIdentityFragment identJdoe ("short1A@".toList) = false ∧
    clean identJdoe ("OldSecret1@".toList) ("short1A@".toList) =
      ValidationResult.TooShort :=
  ⟨by decide, by decide, by decide, by decide,
    clean_too_short identJdoe ("OldSecret1@".toList) ("short1A@".toList)
      (by decide) (by decide) (by decide) (by decide) (by decide)⟩

/-- Claim C9: saving a user not yet in the database creates exactly one
profile row, linked to that user; saving an already-present user creates no
profile row at all. -/
theorem save_user_profile_provisioning (s : DBState) (u : Nat) :
    (save_user u s).profiles.count u =
      s.profiles.count u + (if s.users.contains u then 0 else 1) ∧
    (save_user u s).profiles.length =
      s.profiles.length + (if s.users.contains u then 0 else 1) := by
  cases h : s.users.contains u <;> simp at h <;>
    simp [save_user, create_user_profile, h]

/-- Claim C10: `create_user` raises `ValueError` exactly when `email` is
falsy or `username` is falsy, the email message taking precedence; empty
`first_name` / `last_name` never cause an error, and on success the
returned user is saved with the given password set. -/
theorem create_user_spec (fn ln email : Str) (uname : Option Str) (pw : Option Str) :
    isErr (create_user fn ln email uname pw) = (email.isEmpty || optFalsy uname) ∧
    (email.isEmpty = true →
      create_user fn ln email uname pw =
        Except.error "Users must have an email address") ∧
    (email.isEmpty = false → optFalsy uname = false →
      ∃ u, create_user fn ln email uname pw = Except.ok u ∧
        u.password = pw ∧ u.saved = true) := by
  refine ⟨?_, ?_, ?_⟩
  · cases h1 : email.isEmpty <;> cases h2 : optFalsy uname <;>
      simp [create_user, isErr, h1, h2]
  · intro h1
    simp [create_user, h1]
  · intro h1 h2
    refine ⟨save (set_password
      { first_name := fn, last_name := ln, email := normalize_email email,
        username := uname.getD [], password := none, saved := false } pw),
      ?_, rfl, rfl⟩
    simp [create_user, h1, h2]

theorem create_user_spec_witness :
    (("a@Example.com".toList : Str).isEmpty = false) ∧
    (optFalsy (some ("bob".toList)) = false) ∧
    ∃ u, create_user [] [] ("a@Example.com".toList) (some ("bob".toList))
        (some ("pw1".toList)) = Except.ok u ∧
      u.password = some ("pw1".toList) ∧ u.saved = true :=
  ⟨rfl, rfl,
    (create_user_spec [] [] ("a@Example.com".toList) (some ("bob".toList))
      (some ("pw1".toList))).2.2 rfl rfl⟩

end FootApp
